import Mathlib

/-!
Shallow embedding of `src/app.py` (blob-fee metrics scraper).

Numeric conventions: Python ints are modelled as `ℕ`, Python floats as `ℚ`
(exact arithmetic; the spec only demands the float formulas up to rounding).
Fallible operations (RPC calls, dict indexing, `float(...)` parsing) are
modelled with `Option`.  External effects (the CoinGecko fetch, wall-clock
time, chain RPC results) are passed in as explicit arguments; the CSV file is
passed as an explicit list of rows and returned updated.
-/

namespace Scrape

/-- One row of blob_data.csv as read back by csv.DictReader.  Annualization
only ever reads the `block_revenue_usd` column and parses it with float(..);
`some v` models a row whose `block_revenue_usd` field is present and parses to
`v`, `none` models a missing column or a parse failure (ValueError/KeyError). -/
structure CsvRow where
  block_revenue_usd : Option ℚ
  deriving DecidableEq, Inhabited

/-- The module-level `eth_price_cache` dict with keys price and last_update. -/
structure EthPriceCache where
  price : ℚ
  last_update : ℚ
  deriving DecidableEq, Inhabited

/-- Initial value of `eth_price_cache` in app.py: price 4000, last_update 0. -/
def initial_eth_price_cache : EthPriceCache := { price := 4000, last_update := 0 }

/-- Result of one `get_eth_price()` call: the returned price, the cache state
after the call, and whether an external fetch (the `requests.get` to
CoinGecko) was attempted during the call. -/
structure PriceCallResult where
  price : ℚ
  cache : EthPriceCache
  fetch_attempted : Bool
  deriving DecidableEq

/-- Function get_eth_price from app.py.  `current_time` is the wall clock
(datetime.now().timestamp());
`fetch` is the outcome of the external HTTP fetch if one is attempted
(`some p` = request succeeded and the JSON parsed to price `p`; `none` = any
failure: timeout, network error, malformed response). -/
def get_eth_price (cache : EthPriceCache) (current_time : ℚ) (fetch : Option ℚ) :
    PriceCallResult :=
  if current_time - cache.last_update < 300 then
    ⟨cache.price, cache, false⟩
  else
    match fetch with
    | some price => ⟨price, ⟨price, current_time⟩, true⟩
    | none => ⟨cache.price, cache, true⟩

/-- Function calculate_annualized_revenue from app.py, with the CSV contents
(the result of read_csv_data) passed in as `data`. -/
def calculate_annualized_revenue (data : List CsvRow) : Option ℚ :=
  if data.length = 0 then none
  else if data.length < 60 then none
  else
    let recent_revenues := data.filterMap (fun row => row.block_revenue_usd)
    if recent_revenues.isEmpty then none
    else
      let avg_revenue_per_sample := recent_revenues.sum / (recent_revenues.length : ℚ)
      let samples_per_hour : ℚ := 60
      let hourly_revenue := avg_revenue_per_sample * samples_per_hour
      let annualized := hourly_revenue * 8760
      some annualized

/-- Function wei_to_eth from app.py: wei / 1e18. -/
def wei_to_eth (wei : ℚ) : ℚ := wei / 10 ^ 18

/-- The constant `BLOB_GAS_PER_BLOB` from `calculate_cost_per_blob`. -/
def BLOB_GAS_PER_BLOB : ℚ := 131072

/-- Function calculate_cost_per_blob from app.py: each blob = 131072 blob gas. -/
def calculate_cost_per_blob (blob_base_fee_wei : ℚ) : ℚ :=
  wei_to_eth (blob_base_fee_wei * BLOB_GAS_PER_BLOB)

/-- Function calculate_block_revenue from app.py. -/
def calculate_block_revenue (blob_base_fee_wei blob_gas_used : ℚ) : ℚ :=
  wei_to_eth (blob_base_fee_wei * blob_gas_used)

/-- The block mapping returned by w3.eth.get_block(latest), restricted to
the five fields `get_block_info` reads.  `none` models an absent key. -/
structure Block where
  number : Option ℕ
  blobGasUsed : Option ℕ
  baseFeePerGas : Option ℕ
  gasUsed : Option ℕ
  timestamp : Option ℕ
  deriving DecidableEq, Inhabited

/-- The dict built by get_block_info. -/
structure BlockInfo where
  block_number : ℕ
  blob_gas_used : ℕ
  base_fee_per_gas : ℕ
  gas_used : ℕ
  timestamp : ℕ
  deriving DecidableEq, Inhabited

/-- Function get_block_info from app.py.  `blobGasUsed`, `baseFeePerGas` and
`gasUsed` are read with block.get(key, 0) (defaulting to 0); `number` and
`timestamp` are read with block[key], which raises KeyError when absent,
modelled as `none`. -/
def get_block_info (block : Block) : Option BlockInfo :=
  let blob_gas_used := block.blobGasUsed.getD 0
  let base_fee_per_gas := block.baseFeePerGas.getD 0
  let gas_used := block.gasUsed.getD 0
  match block.number, block.timestamp with
  | some number, some timestamp =>
      some { block_number := number
             blob_gas_used := blob_gas_used
             base_fee_per_gas := base_fee_per_gas
             gas_used := gas_used
             timestamp := timestamp }
  | _, _ => none

/-- The dict built by get_blob_metrics, keeping the raw (unformatted)
numeric values; the formatted display strings in the source are string
renderings of exactly these numbers.  `blob_fee_usd` is the number formatted
into the `blob_fee_usd` display string. -/
structure BlobMetrics where
  block_number : ℕ
  eth_price : ℚ
  blob_fee_wei : ℕ
  blob_fee_eth : ℚ
  blob_fee_usd : ℚ
  cost_per_blob_eth : ℚ
  cost_per_blob_usd : ℚ
  blob_gas_used : ℕ
  block_revenue_eth : ℚ
  block_revenue_usd : ℚ
  base_fee_wei : ℕ
  gas_used : ℕ
  base_fee_burned_eth : ℚ
  base_fee_burned_usd : ℚ
  annualized_revenue_usd : Option ℚ
  fee_is_zero : Bool
  deriving DecidableEq, Inhabited

/-- Function save_to_csv from app.py: appends one row to the CSV.  The
`block_revenue_usd` column of the new row is the string rendering of the raw
block_revenue_usd number, which parses back to the same number, hence `some`. -/
def save_to_csv (log : List CsvRow) (data : BlobMetrics) : List CsvRow :=
  log ++ [{ block_revenue_usd := some data.block_revenue_usd }]

/-- Function get_blob_metrics from app.py.  Explicit inputs: the CSV contents
`log`, the price cache, the wall-clock time, the price-fetch outcome, the
eth_blobBaseFee RPC outcome (`chain_blob_fee`, `none` = the RPC raised), and
the get_block(latest) outcome (`chain_block`, `none` = the RPC raised).
Returns the metrics dict (or `none` when an exception propagates), the CSV
contents after the call, and the price cache after the call. -/
def get_blob_metrics (log : List CsvRow) (cache : EthPriceCache) (current_time : ℚ)
    (price_fetch : Option ℚ) (chain_blob_fee : Option ℕ) (chain_block : Option Block) :
    Option BlobMetrics × List CsvRow × EthPriceCache :=
  let priceRes := get_eth_price cache current_time price_fetch
  let eth_price := priceRes.price
  match chain_blob_fee with
  | none => (none, log, priceRes.cache)
  | some blob_fee_wei =>
    match chain_block.bind get_block_info with
    | none => (none, log, priceRes.cache)
    | some block_info =>
      let blob_fee_eth := wei_to_eth blob_fee_wei
      let cost_per_blob := calculate_cost_per_blob blob_fee_wei
      let block_revenue := calculate_block_revenue blob_fee_wei block_info.blob_gas_used
      let base_fee_burned_wei : ℚ := (block_info.base_fee_per_gas : ℚ) * (block_info.gas_used : ℚ)
      let base_fee_burned_eth := wei_to_eth base_fee_burned_wei
      let annualized_revenue := calculate_annualized_revenue log
      let data : BlobMetrics :=
        { block_number := block_info.block_number
          eth_price := eth_price
          blob_fee_wei := blob_fee_wei
          blob_fee_eth := blob_fee_eth
          blob_fee_usd := blob_fee_eth * eth_price
          cost_per_blob_eth := cost_per_blob
          cost_per_blob_usd := cost_per_blob * eth_price
          blob_gas_used := block_info.blob_gas_used
          block_revenue_eth := block_revenue
          block_revenue_usd := block_revenue * eth_price
          base_fee_wei := block_info.base_fee_per_gas
          gas_used := block_info.gas_used
          base_fee_burned_eth := base_fee_burned_eth
          base_fee_burned_usd := base_fee_burned_eth * eth_price
          annualized_revenue_usd := annualized_revenue
          fee_is_zero := blob_fee_wei == 0 }
      (some data, save_to_csv log data, priceRes.cache)

/-! Concrete test vectors (the spec's end-to-end example: blob base fee 1 gwei,
blob gas used 131072, price 4000 USD). -/

/-- Test vector: a latest block carrying one full blob. -/
def sample_block : Block :=
  { number := some 1, blobGasUsed := some 131072, baseFeePerGas := some 7,
    gasUsed := some 21000, timestamp := some 99 }

/-- Test vector: one get_blob_metrics call on an empty log, with a successful
price fetch at 4000 and blob base fee 1 gwei. -/
def sample_run : Option BlobMetrics × List CsvRow × EthPriceCache :=
  get_blob_metrics [] initial_eth_price_cache 400 (some 4000) (some 1000000000)
    (some sample_block)

/-- The observation produced by `sample_run`. -/
def sample_obs : BlobMetrics := sample_run.1.getD default

/-- The log after `sample_run`. -/
def sample_log2 : List CsvRow := sample_run.2.1

/-- The price cache after `sample_run`. -/
def sample_cache2 : EthPriceCache := sample_run.2.2

/-- Test vector: same call but with blob base fee 0. -/
def sample_run_zero : Option BlobMetrics × List CsvRow × EthPriceCache :=
  get_blob_metrics [] initial_eth_price_cache 400 (some 4000) (some 0) (some sample_block)

/-- The observation produced by `sample_run_zero`. -/
def sample_obs_zero : BlobMetrics := sample_run_zero.1.getD default

/-- Test vector: a 59-record log, each record with block_revenue_usd = 10. -/
def sample_log59 : List CsvRow := List.replicate 59 { block_revenue_usd := some 10 }

/-- Test vector: the get_blob_metrics call that appends the 60th record. -/
def sample_run59 : Option BlobMetrics × List CsvRow × EthPriceCache :=
  get_blob_metrics sample_log59 initial_eth_price_cache 400 (some 4000) (some 1000000000)
    (some sample_block)

/-- The observation produced by `sample_run59`. -/
def sample_obs59 : BlobMetrics := sample_run59.1.getD default

/-- C4 (part): pure cache hit.  A get_eth_price call arriving with
now - last_update < 300 returns the cached price, performs no external fetch,
and leaves the cache entry unchanged; a call at or after the window attempts
exactly one fetch.  After a successful fetch at time `now`, a further call at
`t2` with t2 - now < 300 returns the identical price with no second fetch. -/
theorem c4_price_cache_window (cache : EthPriceCache) (now t2 : ℚ)
    (fetch f2 : Option ℚ) (p : ℚ) :
    (now - cache.last_update < 300 →
      get_eth_price cache now fetch = ⟨cache.price, cache, false⟩) ∧
    (¬ now - cache.last_update < 300 →
      (get_eth_price cache now fetch).fetch_attempted = true) ∧
    (¬ now - cache.last_update < 300 → t2 - now < 300 →
      get_eth_price (get_eth_price cache now (some p)).cache t2 f2 =
        ⟨p, ⟨p, now⟩, false⟩) := by
  refine ⟨fun h => ?_, fun h => ?_, fun h h2 => ?_⟩
  · simp [get_eth_price, h]
  · simp only [get_eth_price, if_neg h]
    cases fetch <;> rfl
  · simp only [get_eth_price, if_neg h]
    simp [h2]

/-- C4 (counterexample): two calls 100 seconds apart can both attempt an
external fetch and return different prices, when the first call's fetch fails
(the failed refresh leaves last_update unchanged, so the second call is
outside the window too). -/
theorem c4_counterexample :
    (1100 : ℚ) - 1000 < 300 ∧
    get_eth_price ⟨4000, 0⟩ 1000 none = ⟨4000, ⟨4000, 0⟩, true⟩ ∧
    get_eth_price ⟨4000, 0⟩ 1100 (some 5000) = ⟨5000, ⟨5000, 1100⟩, true⟩ ∧
    (4000 : ℚ) ≠ 5000 := by
  refine ⟨by norm_num, by norm_num [get_eth_price], by norm_num [get_eth_price], by norm_num⟩

/-- C4 witness: concrete cache hit (now = 100 against last_update = 0),
concrete fetch at now = 400, and a second call 100 seconds after a successful
fetch returning the same price without fetching. -/
theorem c4_witness :
    get_eth_price ⟨4000, 0⟩ 100 (some 5000) = ⟨4000, ⟨4000, 0⟩, false⟩ ∧
    (get_eth_price ⟨4000, 0⟩ 400 (some 5000)).fetch_attempted = true ∧
    get_eth_price (get_eth_price ⟨4000, 0⟩ 400 (some 5000)).cache 500 (some 9999) =
      ⟨5000, ⟨5000, 400⟩, false⟩ :=
  ⟨(c4_price_cache_window ⟨4000, 0⟩ 100 0 (some 5000) none 0).1 (by norm_num),
   (c4_price_cache_window ⟨4000, 0⟩ 400 500 (some 5000) (some 9999) 5000).2.1 (by norm_num),
   (c4_price_cache_window ⟨4000, 0⟩ 400 500 (some 5000) (some 9999) 5000).2.2
     (by norm_num) (by norm_num)⟩

/-- C5: when the external fetch is attempted (the cache entry is stale) and
fails, get_eth_price leaves the cache entry unchanged, returns the previously
cached price, and raises no error (it is a total function into ℚ, so the
returned price is never null). -/
theorem c5_fetch_failure_fallback (cache : EthPriceCache) (now : ℚ)
    (h : ¬ now - cache.last_update < 300) :
    get_eth_price cache now none = ⟨cache.price, cache, true⟩ := by
  simp only [get_eth_price, if_neg h]

/-- C5 witness: stale cache (last_update 0, now 400), failed fetch. -/
theorem c5_witness :
    get_eth_price ⟨4000, 0⟩ 400 none = ⟨4000, ⟨4000, 0⟩, true⟩ :=
  c5_fetch_failure_fallback ⟨4000, 0⟩ 400 (by norm_num)

/-- C9 (counterexample): a block mapping missing the number key makes
get_block_info fail (the source indexes block[number] directly), rather than
defaulting the field to 0 as the claim states. -/
theorem c9_counterexample :
    get_block_info ⟨none, some 1, some 2, some 3, some 4⟩ = none := rfl

/-- C9 (amended): blobGasUsed, baseFeePerGas and gasUsed each default to 0
when absent, but number and timestamp must be present: get_block_info succeeds
exactly when both are, and fails (raises KeyError) when either is absent. -/
theorem c9_block_info_defaults (b : Block) :
    (∀ n ts, b.number = some n → b.timestamp = some ts →
      get_block_info b = some
        { block_number := n, blob_gas_used := b.blobGasUsed.getD 0,
          base_fee_per_gas := b.baseFeePerGas.getD 0, gas_used := b.gasUsed.getD 0,
          timestamp := ts }) ∧
    (b.number = none ∨ b.timestamp = none → get_block_info b = none) := by
  constructor
  · intro n ts hn ht
    simp [get_block_info, hn, ht]
  · intro h
    rcases h with h | h <;> simp [get_block_info, h]

/-- C9 witness: a block missing blobGasUsed defaults it to 0 while keeping
number and timestamp; a block missing timestamp fails. -/
theorem c9_witness :
    get_block_info ⟨some 5, none, some 2, some 3, some 4⟩ = some
      { block_number := 5, blob_gas_used := 0, base_fee_per_gas := 2,
        gas_used := 3, timestamp := 4 } ∧
    get_block_info ⟨some 5, some 1, some 2, some 3, none⟩ = none :=
  ⟨(c9_block_info_defaults ⟨some 5, none, some 2, some 3, some 4⟩).1 5 4 rfl rfl,
   (c9_block_info_defaults ⟨some 5, some 1, some 2, some 3, none⟩).2 (Or.inr rfl)⟩

/-- C8: for every non-negative integer blob base fee, the cost per blob equals
the blob fee (in ETH) times 131072: (w * 131072) / 1e18 = (w / 1e18) * 131072
in the exact-rational model of the float arithmetic. -/
theorem c8_cost_per_blob_relation (blob_base_fee_wei : ℕ) :
    calculate_cost_per_blob blob_base_fee_wei =
      wei_to_eth blob_base_fee_wei * 131072 := by
  unfold calculate_cost_per_blob wei_to_eth BLOB_GAS_PER_BLOB
  ring

/-- C2: annualization returns none whenever the log has fewer than 60
records; with at least 60 records all of which parse, it returns the mean of
the block_revenue_usd values times 60 times 8760. -/
theorem c2_annualized_revenue (data : List CsvRow) :
    (data.length < 60 → calculate_annualized_revenue data = none) ∧
    (60 ≤ data.length → (∀ r ∈ data, r.block_revenue_usd.isSome) →
      calculate_annualized_revenue data =
        some ((data.filterMap (fun row => row.block_revenue_usd)).sum /
          ((data.filterMap (fun row => row.block_revenue_usd)).length : ℚ) * 60 * 8760)) := by
  constructor
  · intro h
    unfold calculate_annualized_revenue
    by_cases h0 : data.length = 0
    · rw [if_pos h0]
    · rw [if_neg h0, if_pos h]
  · intro h60 hall
    have h0 : ¬ data.length = 0 := by omega
    have hlt : ¬ data.length < 60 := by omega
    have hne : ¬ (data.filterMap (fun row => row.block_revenue_usd)).isEmpty = true := by
      cases data with
      | nil => simp at h0
      | cons r rest =>
        have hr := hall r (List.mem_cons_self r rest)
        obtain ⟨v, hv⟩ := Option.isSome_iff_exists.mp hr
        have hmem : v ∈ (r :: rest).filterMap (fun row => row.block_revenue_usd) :=
          List.mem_filterMap.mpr ⟨r, List.mem_cons_self r rest, hv⟩
        simp only [List.isEmpty_iff]
        intro hnil
        rw [hnil] at hmem
        exact List.not_mem_nil v hmem
    unfold calculate_annualized_revenue
    rw [if_neg h0, if_neg hlt, if_neg hne]

/-- C2 witness: 59 records of 10 give none; 60 records of 10 give
10 * 60 * 8760 = 5256000 (the instantiated mean expression evaluates to it). -/
theorem c2_witness :
    calculate_annualized_revenue (List.replicate 59 ⟨some 10⟩) = none ∧
    calculate_annualized_revenue (List.replicate 60 ⟨some 10⟩) = some 5256000 :=
  ⟨(c2_annualized_revenue (List.replicate 59 ⟨some 10⟩)).1 (by simp),
   ((c2_annualized_revenue (List.replicate 60 ⟨some 10⟩)).2 (by simp)
     (by intro r hr; rw [List.eq_of_mem_replicate hr]; rfl)).trans
     (by norm_num [List.filterMap_replicate])⟩

/-- C3: with at least 60 records, records whose block_revenue_usd is missing
or fails to parse are silently skipped: the result depends only on the
successfully parsed values, is none when no record parses, and otherwise is
their mean times 60 times 8760. -/
theorem c3_skip_malformed (data : List CsvRow) (h : 60 ≤ data.length) :
    calculate_annualized_revenue data =
      (if (data.filterMap (fun row => row.block_revenue_usd)).isEmpty then none
       else some ((data.filterMap (fun row => row.block_revenue_usd)).sum /
         ((data.filterMap (fun row => row.block_revenue_usd)).length : ℚ) * 60 * 8760)) := by
  have h0 : ¬ data.length = 0 := by omega
  have hlt : ¬ data.length < 60 := by omega
  unfold calculate_annualized_revenue
  rw [if_neg h0, if_neg hlt]

/-- C3 witness: 60 records of which 10 fail to parse and 50 carry
block_revenue_usd = 20 give 20 * 60 * 8760 = 10512000. -/
theorem c3_witness :
    calculate_annualized_revenue
      (List.replicate 10 ⟨none⟩ ++ List.replicate 50 ⟨some 20⟩) = some 10512000 :=
  (c3_skip_malformed (List.replicate 10 ⟨none⟩ ++ List.replicate 50 ⟨some 20⟩)
    (by simp)).trans (by norm_num [List.filterMap_append, List.filterMap_replicate])

/-- C1: every observation produced by a successful get_blob_metrics call (with
positive ETH price) satisfies the derivation formulas: blob fee, cost per
blob, block revenue and base-fee burn are the stated wei expressions divided
by 1e18, and each _usd field is the corresponding _eth field times the
observation's eth_price. -/
theorem c1_derived_fields (log : List CsvRow) (cache : EthPriceCache) (t : ℚ)
    (pf : Option ℚ) (bf : ℕ) (blk : Block) (m : BlobMetrics) (log2 : List CsvRow)
    (c2 : EthPriceCache) (hpos : 0 < m.eth_price)
    (h : get_blob_metrics log cache t pf (some bf) (some blk) = (some m, log2, c2)) :
    m.blob_fee_eth = (m.blob_fee_wei : ℚ) / 10 ^ 18 ∧
    m.cost_per_blob_eth = ((m.blob_fee_wei : ℚ) * 131072) / 10 ^ 18 ∧
    m.block_revenue_eth = ((m.blob_fee_wei : ℚ) * (m.blob_gas_used : ℚ)) / 10 ^ 18 ∧
    m.base_fee_burned_eth = ((m.base_fee_wei : ℚ) * (m.gas_used : ℚ)) / 10 ^ 18 ∧
    m.blob_fee_usd = m.blob_fee_eth * m.eth_price ∧
    m.cost_per_blob_usd = m.cost_per_blob_eth * m.eth_price ∧
    m.block_revenue_usd = m.block_revenue_eth * m.eth_price ∧
    m.base_fee_burned_usd = m.base_fee_burned_eth * m.eth_price := by
  rcases hgb : get_block_info blk with _ | bi
  · simp [get_blob_metrics, hgb] at h
  · simp only [get_blob_metrics, Option.some_bind, hgb, Prod.mk.injEq,
      Option.some.injEq] at h
    obtain ⟨hm, -, -⟩ := h
    subst hm
    refine ⟨rfl, ?_, rfl, rfl, rfl, rfl, rfl, rfl⟩
    simp only [calculate_cost_per_blob, wei_to_eth, BLOB_GAS_PER_BLOB]

/-- C1 witness: the spec's end-to-end example (blob base fee 1 gwei, one full
blob, price 4000), instantiated through `sample_run`. -/
theorem c1_witness :
    0 < sample_obs.eth_price ∧
    (sample_obs.blob_fee_eth = (sample_obs.blob_fee_wei : ℚ) / 10 ^ 18 ∧
     sample_obs.cost_per_blob_eth = ((sample_obs.blob_fee_wei : ℚ) * 131072) / 10 ^ 18 ∧
     sample_obs.block_revenue_eth =
       ((sample_obs.blob_fee_wei : ℚ) * (sample_obs.blob_gas_used : ℚ)) / 10 ^ 18 ∧
     sample_obs.base_fee_burned_eth =
       ((sample_obs.base_fee_wei : ℚ) * (sample_obs.gas_used : ℚ)) / 10 ^ 18 ∧
     sample_obs.blob_fee_usd = sample_obs.blob_fee_eth * sample_obs.eth_price ∧
     sample_obs.cost_per_blob_usd = sample_obs.cost_per_blob_eth * sample_obs.eth_price ∧
     sample_obs.block_revenue_usd = sample_obs.block_revenue_eth * sample_obs.eth_price ∧
     sample_obs.base_fee_burned_usd = sample_obs.base_fee_burned_eth * sample_obs.eth_price) := by
  have hpos : 0 < sample_obs.eth_price := by
    norm_num [sample_obs, sample_run, get_blob_metrics, get_eth_price, get_block_info,
      initial_eth_price_cache, sample_block]
  exact ⟨hpos, c1_derived_fields [] initial_eth_price_cache 400 (some 4000) 1000000000
    sample_block sample_obs sample_log2 sample_cache2 hpos rfl⟩

/-- C6: a successful get_blob_metrics call appends exactly one record to the
log (the new log is the old one plus a single row holding the observation's
block_revenue_usd); if a chain call fails, the whole operation fails and the
log is unchanged. -/
theorem c6_log_append (log : List CsvRow) (cache : EthPriceCache) (t : ℚ)
    (pf : Option ℚ) (bf : Option ℕ) (blk : Option Block) :
    (∀ m log2 c2, get_blob_metrics log cache t pf bf blk = (some m, log2, c2) →
        log2 = log ++ [{ block_revenue_usd := some m.block_revenue_usd }]) ∧
    (bf = none ∨ blk.bind get_block_info = none →
        get_blob_metrics log cache t pf bf blk =
          (none, log, (get_eth_price cache t pf).cache)) := by
  constructor
  · intro m log2 c2 h
    rcases bf with _ | bfv
    · simp [get_blob_metrics] at h
    · rcases hgb : blk.bind get_block_info with _ | bi
      · simp [get_blob_metrics, hgb] at h
      · simp only [get_blob_metrics, hgb, Prod.mk.injEq, Option.some.injEq] at h
        obtain ⟨hm, hlog, -⟩ := h
        subst hm hlog
        rfl
  · intro h
    rcases h with h | h
    · subst h; rfl
    · rcases bf with _ | bfv
      · rfl
      · simp [get_blob_metrics, h]

/-- C6 witness: the sample call on an empty log yields a one-record log, and
the same call with a failing eth_blobBaseFee RPC fails leaving the log empty. -/
theorem c6_witness :
    sample_log2 = [] ++ [{ block_revenue_usd := some sample_obs.block_revenue_usd }] ∧
    get_blob_metrics [] initial_eth_price_cache 400 (some 4000) none (some sample_block) =
      (none, [], (get_eth_price initial_eth_price_cache 400 (some 4000)).cache) :=
  ⟨(c6_log_append [] initial_eth_price_cache 400 (some 4000) (some 1000000000)
      (some sample_block)).1 sample_obs sample_log2 sample_cache2 rfl,
   (c6_log_append [] initial_eth_price_cache 400 (some 4000) none
      (some sample_block)).2 (Or.inl rfl)⟩

/-- C7: in every observation produced by get_blob_metrics, fee_is_zero is true
if and only if the blob base fee fetched from the chain is 0. -/
theorem c7_fee_is_zero (log : List CsvRow) (cache : EthPriceCache) (t : ℚ)
    (pf : Option ℚ) (bf : ℕ) (blk : Block) (m : BlobMetrics) (log2 : List CsvRow)
    (c2 : EthPriceCache)
    (h : get_blob_metrics log cache t pf (some bf) (some blk) = (some m, log2, c2)) :
    (m.fee_is_zero = true ↔ bf = 0) ∧ m.blob_fee_wei = bf := by
  rcases hgb : get_block_info blk with _ | bi
  · simp [get_blob_metrics, hgb] at h
  · simp only [get_blob_metrics, Option.some_bind, hgb, Prod.mk.injEq,
      Option.some.injEq] at h
    obtain ⟨hm, -, -⟩ := h
    subst hm
    exact ⟨beq_iff_eq, rfl⟩

/-- C7 witness: fee_is_zero is true in the blob-base-fee-0 sample run and
false in the 1-gwei sample run. -/
theorem c7_witness :
    ((sample_obs_zero.fee_is_zero = true ↔ (0 : ℕ) = 0) ∧ sample_obs_zero.blob_fee_wei = 0) ∧
    ((sample_obs.fee_is_zero = true ↔ (1000000000 : ℕ) = 0) ∧
      sample_obs.blob_fee_wei = 1000000000) :=
  ⟨c7_fee_is_zero [] initial_eth_price_cache 400 (some 4000) 0 sample_block
     sample_obs_zero sample_run_zero.2.1 sample_run_zero.2.2 rfl,
   c7_fee_is_zero [] initial_eth_price_cache 400 (some 4000) 1000000000 sample_block
     sample_obs sample_log2 sample_cache2 rfl⟩

/-- C10: the annualized-revenue value inside an observation is computed from
the log as it was before the call appended its own record; in particular, the
call that appends the 60th record still reports it as unavailable while the
log holds 60 records right afterwards. -/
theorem c10_annualized_before_append (log : List CsvRow) (cache : EthPriceCache)
    (t : ℚ) (pf : Option ℚ) (bf : Option ℕ) (blk : Option Block) (m : BlobMetrics)
    (log2 : List CsvRow) (c2 : EthPriceCache)
    (h : get_blob_metrics log cache t pf bf blk = (some m, log2, c2)) :
    m.annualized_revenue_usd = calculate_annualized_revenue log ∧
    (log.length = 59 → m.annualized_revenue_usd = none ∧ log2.length = 60) := by
  rcases bf with _ | bfv
  · simp [get_blob_metrics] at h
  · rcases hgb : blk.bind get_block_info with _ | bi
    · simp [get_blob_metrics, hgb] at h
    · simp only [get_blob_metrics, hgb, Prod.mk.injEq, Option.some.injEq] at h
      obtain ⟨hm, hlog, -⟩ := h
      subst hm hlog
      refine ⟨rfl, fun h59 => ⟨?_, ?_⟩⟩
      · show calculate_annualized_revenue log = none
        unfold calculate_annualized_revenue
        rw [if_neg (by omega), if_pos (by omega)]
      · simp [save_to_csv, h59]

/-- C10 witness: the call on the 59-record sample log reports the projection
as unavailable and leaves a 60-record log. -/
theorem c10_witness :
    sample_obs59.annualized_revenue_usd = none ∧ sample_run59.2.1.length = 60 :=
  (c10_annualized_before_append sample_log59 initial_eth_price_cache 400 (some 4000)
    (some 1000000000) (some sample_block) sample_obs59 sample_run59.2.1
    sample_run59.2.2 rfl).2 (by simp [sample_log59])

end Scrape
